import Mathlib

/-!
Shallow embedding of the GIF-search feature of the react2025 repository:
the `useGif` hook (src/03-gifs-app/src/gifs/hooks/useGif.tsx), which owns the
current results, the bounded search history and the per-term result cache, and
the `getGifsByQuery` action
(src/03-gifs-app/src/gifs/actions/get-gifs-by-query.action.ts), which maps the
provider response into the app's `Gif` records.

Asynchrony is modelled by passing the fetch routine as an explicit oracle and
recording, for every operation, which terms were fetched and whether a
FetchFailed error propagated to the caller.
-/

set_option autoImplicit false

/-- An exact rational in lowest terms with positive denominator, the value of a
JS numeric string literal. The model takes the exact mathematical value of the
literal and abstracts from IEEE-754 rounding; the dimension strings at hand are
small decimal integers, which doubles represent exactly. -/
structure JSRat where
  num : Int
  den : Nat
deriving DecidableEq

/-- A JavaScript number as produced by `Number(...)` coercion of a string:
NaN, a signed infinity (`true` = negative), or a finite value. -/
inductive JSNumber where
  | nan : JSNumber
  | inf : Bool → JSNumber
  | val : JSRat → JSNumber
deriving DecidableEq

/-- The app-side `Gif` record (src/03-gifs-app/src/gifs/interface, as used by
`getGifsByQuery`): id, title, media url, and the width/height obtained by
`Number(...)` coercion. -/
structure Gif where
  id : String
  title : String
  url : String
  width : JSNumber
  height : JSNumber
deriving DecidableEq

/-- JS `String.prototype.trim`: drop whitespace from both ends, modelled on the
character list (the model covers ASCII whitespace). -/
def jsTrim (s : String) : String :=
  ⟨((s.data.dropWhile Char.isWhitespace).reverse.dropWhile Char.isWhitespace).reverse⟩

/-- JS `toLocaleLowerCase`, modelled as per-character lowercasing. -/
def jsToLower (s : String) : String :=
  ⟨s.data.map Char.toLower⟩

/-- The normalization performed at the top of `handleSearch`:
`query.trim().toLocaleLowerCase()`. -/
def normalizeQuery (q : String) : String :=
  jsToLower (jsTrim q)

/-- The state owned by one `useGif` hook instance: `gifs` (the results
currently displayed), `previousTerms` (the search history, newest first) and
`gifsCache` (the `useRef` record mapping a term to its cached results, modelled
as an association list where a newly written binding shadows an older one). -/
structure GifState where
  gifs : List Gif
  previousTerms : List String
  gifsCache : List (String × List Gif)
deriving DecidableEq

/-- The hook's initial state: `useState<Gif[]>([])`, `useState<string[]>([])`,
`useRef<Record<string, Gif[]>>({})`. -/
def initialState : GifState := ⟨[], [], []⟩

/-- Result of one call to the fetch routine (`getGifsByQuery`): a list of `Gif`
on success, or the single FetchFailed error (a rejected promise). -/
abbrev FetchResult := Except Unit (List Gif)

/-- The fetch routine as an oracle from the query term to its outcome. -/
abbrev Fetcher := String → FetchResult

/-- Observable outcome of one hook operation: the new hook state, the list of
terms passed to the fetch routine during the operation (in call order), and
whether a FetchFailed error propagated to the operation's caller. -/
structure OpResult where
  state : GifState
  fetched : List String
  failed : Bool
deriving DecidableEq

/-- `handleTermClicked` from useGif.tsx. The JS cache test
`if (gifsCache.current[term])` holds exactly when the key is present, because a
stored array (even an empty one) is truthy; on a hit it sets `gifs` from the
cache and returns without fetching. On a miss it awaits `getGifsByQuery(term)`
and sets `gifs`; it never writes to the cache and never touches the history,
and if the fetch rejects, `setGifs` is not reached and the error propagates. -/
def handleTermClicked (fetch : Fetcher) (s : GifState) (term : String) : OpResult :=
  match s.gifsCache.lookup term with
  | some cached => ⟨{ s with gifs := cached }, [], false⟩
  | none =>
    match fetch term with
    | Except.ok gs => ⟨{ s with gifs := gs }, [term], false⟩
    | Except.error _ => ⟨s, [term], true⟩

/-- `handleSearch` from useGif.tsx. It normalizes the query, returns on an
empty normalized query or on a term already contained in `previousTerms`,
updates the history with `[query, ...previousTerms].splice(0, 8)` — which
evaluates to the first `min 8` elements of the prepended list — and only then
awaits the fetch. On success it sets `gifs` and writes the cache entry; if the
fetch rejects, the history update has already happened, `gifs` and the cache
are untouched, and the error propagates. -/
def handleSearch (fetch : Fetcher) (s : GifState) (query : String) : OpResult :=
  let q := normalizeQuery query
  if q.length = 0 then ⟨s, [], false⟩
  else if s.previousTerms.contains q then ⟨s, [], false⟩
  else
    let terms := (q :: s.previousTerms).take 8
    match fetch q with
    | Except.ok gs => ⟨⟨gs, terms, (q, gs) :: s.gifsCache⟩, [q], false⟩
    | Except.error _ => ⟨{ s with previousTerms := terms }, [q], true⟩

/-- One user-level operation of the hook together with the outcome the fetch
routine would deliver if it were invoked during that operation. -/
inductive Op where
  | search : String → FetchResult → Op
  | click : String → FetchResult → Op

/-- Run one operation on the hook state. -/
def stepOp (s : GifState) : Op → GifState
  | Op.search q fr => (handleSearch (fun _ => fr) s q).state
  | Op.click t fr => (handleTermClicked (fun _ => fr) s t).state

/-- Run a sequence of operations on the hook state. -/
def runOps (s : GifState) : List Op → GifState
  | [] => s
  | op :: rest => runOps (stepOp s op) rest

/-- Whether `handleSearch` on `q` in state `s` reaches the fetch call: the
normalized query is non-empty and not already in the history. -/
def acceptedSearch (s : GifState) (q : String) : Bool :=
  if (normalizeQuery q).length = 0 then false
  else if s.previousTerms.contains (normalizeQuery q) then false
  else true

/-- Whether a fetch outcome is a success. -/
def fetchOk : FetchResult → Bool
  | Except.ok _ => true
  | Except.error _ => false

/-- Whether a single operation from state `s` is a new-search for `t` that
completes a successful fetch (a replay click never qualifies). -/
def opAddsKey (s : GifState) (op : Op) (t : String) : Bool :=
  match op with
  | Op.search q fr => acceptedSearch s q && (normalizeQuery q == t) && fetchOk fr
  | Op.click _ _ => false

/-- Whether some operation of the sequence, run from state `s`, is a
new-search for `t` completing a successful fetch. -/
def newSearchSucceeded (s : GifState) : List Op → String → Bool
  | [], _ => false
  | op :: rest, t => opAddsKey s op t || newSearchSucceeded (stepOp s op) rest t

/-- The `images.original` record of a provider entry: media url plus the
dimensions that the provider reports as text. -/
structure GiphyOriginal where
  url : String
  width : String
  height : String
deriving DecidableEq

/-- The `images` record of a provider entry (only `original` is consumed). -/
structure GiphyImages where
  original : GiphyOriginal
deriving DecidableEq

/-- One entry of the provider response (`GiphyResponse.data` element). -/
structure GiphyItem where
  id : String
  title : String
  images : GiphyImages
deriving DecidableEq

/-- The provider response body: `data` is the ranked list of entries. -/
structure GiphyResponse where
  data : List GiphyItem
deriving DecidableEq

/-- Greatest common divisor by Euclid's algorithm with an explicit fuel bound
(the first argument strictly decreases, so fuel `m + 1` is enough); structural
recursion keeps it kernel-reducible on concrete inputs. -/
def myGcdFuel : Nat → Nat → Nat → Nat
  | 0, _, n => n
  | f + 1, m, n => if m = 0 then n else myGcdFuel f (n % m) m

/-- Greatest common divisor (fuel-based Euclid). -/
def myGcd (m n : Nat) : Nat := myGcdFuel (m + 1) m n

/-- The fraction `n / d` in lowest terms. -/
def fracVal (n d : Nat) : JSRat :=
  let g := myGcd n d
  if g = 0 then ⟨0, 1⟩ else ⟨(n / g : Nat), d / g⟩

/-- Negation of an exact value. -/
def JSRat.neg (q : JSRat) : JSRat := ⟨-q.num, q.den⟩

/-- Value of a decimal digit string. -/
def decVal (cs : List Char) : Nat :=
  cs.foldl (fun a c => a * 10 + (c.toNat - 48)) 0

/-- Binary digit, as in a JS `0b` literal. -/
def isBinDigitChar (c : Char) : Bool :=
  c = '0' || c = '1'

/-- Octal digit, as in a JS `0o` literal. -/
def isOctDigitChar (c : Char) : Bool :=
  48 ≤ c.toNat && c.toNat ≤ 55

/-- Hexadecimal digit, as in a JS `0x` literal. -/
def isHexDigitChar (c : Char) : Bool :=
  c.isDigit || (97 ≤ c.toNat && c.toNat ≤ 102) || (65 ≤ c.toNat && c.toNat ≤ 70)

/-- Value of a hexadecimal digit. -/
def hexDigitVal (c : Char) : Nat :=
  if c.isDigit then c.toNat - 48
  else if 97 ≤ c.toNat then c.toNat - 87
  else c.toNat - 55

/-- Value of a digit string in the given radix. -/
def radixVal (radix : Nat) (dv : Char → Nat) (cs : List Char) : Nat :=
  cs.foldl (fun a c => a * radix + dv c) 0

/-- The ExponentPart of a JS decimal literal: empty means exponent 0;
otherwise `e`/`E`, an optional sign and a non-empty digit string; anything
else rejects the literal. -/
def parseExp : List Char → Option Int
  | [] => some 0
  | c :: rest =>
    if c = 'e' || c = 'E' then
      match rest with
      | '+' :: ds => if !ds.isEmpty && ds.all Char.isDigit then some (decVal ds) else none
      | '-' :: ds => if !ds.isEmpty && ds.all Char.isDigit then some (-(decVal ds : Int)) else none
      | ds => if !ds.isEmpty && ds.all Char.isDigit then some (decVal ds) else none
    else none

/-- Exact value of integer digits `ip`, fraction digits `fp` and exponent `e`:
`(ip.fp) * 10 ^ e` in lowest terms. -/
def decimalValue (ip fp : List Char) (e : Int) : JSRat :=
  let num0 := decVal ip * 10 ^ fp.length + decVal fp
  if 0 ≤ e then fracVal (num0 * 10 ^ e.toNat) (10 ^ fp.length)
  else fracVal num0 (10 ^ fp.length * 10 ^ (-e).toNat)

/-- The unsigned StrDecimalLiteral of ECMAScript StringToNumber:
`digits [. digits] [exp]` or `. digits [exp]`, with at least one mantissa
digit; `none` when the characters are not such a literal. -/
def parseDecimalLiteral (cs : List Char) : Option JSRat :=
  let p := cs.span Char.isDigit
  match p.2 with
  | '.' :: rest2 =>
      let q := rest2.span Char.isDigit
      if p.1.isEmpty && q.1.isEmpty then none
      else
        match parseExp q.2 with
        | none => none
        | some e => some (decimalValue p.1 q.1 e)
  | _ =>
      if p.1.isEmpty then none
      else
        match parseExp p.2 with
        | none => none
        | some e => some (decimalValue p.1 [] e)

/-- A signed decimal literal or signed `Infinity`; everything else is NaN. -/
def signedDecimal (cs : List Char) : JSNumber :=
  let sb : Bool × List Char :=
    match cs with
    | '-' :: rest => (true, rest)
    | '+' :: rest => (false, rest)
    | rest => (false, rest)
  if sb.2 = "Infinity".data then JSNumber.inf sb.1
  else
    match parseDecimalLiteral sb.2 with
    | some v => JSNumber.val (if sb.1 then v.neg else v)
    | none => JSNumber.nan

/-- JS `Number(...)` on a string, the ECMAScript StringToNumber operation:
trim whitespace; the empty string coerces to 0; unsigned `0x`/`0b`/`0o`
radix literals coerce to their integer value; otherwise an optionally signed
decimal literal (digits, optional fraction, optional exponent) or `Infinity`
coerces to its value; any other string coerces to NaN. -/
def jsStringToNumber (s : String) : JSNumber :=
  let t := (jsTrim s).data
  match t with
  | [] => JSNumber.val ⟨0, 1⟩
  | '0' :: x :: rest =>
      if (x = 'x' || x = 'X') && !rest.isEmpty && rest.all isHexDigitChar then
        JSNumber.val ⟨(radixVal 16 hexDigitVal rest : Nat), 1⟩
      else if (x = 'b' || x = 'B') && !rest.isEmpty && rest.all isBinDigitChar then
        JSNumber.val ⟨(radixVal 2 (fun c => c.toNat - 48) rest : Nat), 1⟩
      else if (x = 'o' || x = 'O') && !rest.isEmpty && rest.all isOctDigitChar then
        JSNumber.val ⟨(radixVal 8 (fun c => c.toNat - 48) rest : Nat), 1⟩
      else signedDecimal t
  | _ => signedDecimal t

/-- The per-entry mapping applied by `getGifsByQuery`:
`{ id, title, url: images.original.url, width: Number(images.original.width),
height: Number(images.original.height) }`. -/
def mapGifItem (g : GiphyItem) : Gif :=
  { id := g.id
    title := g.title
    url := g.images.original.url
    width := jsStringToNumber g.images.original.width
    height := jsStringToNumber g.images.original.height }

/-- `getGifsByQuery` from get-gifs-by-query.action.ts: issue the `/search`
request with the query and `limit: 10` against the provider (`serve`),
propagate a failure unchanged (there is no try/catch), and on success map each
entry of `response.data.data` in order. -/
def getGifsByQuery (serve : String → Nat → Except Unit GiphyResponse)
    (query : String) : Except Unit (List Gif) :=
  match serve query 10 with
  | Except.error e => Except.error e
  | Except.ok resp => Except.ok (resp.data.map mapGifItem)

/-- A sample result item, as in the end-to-end scenario of the spec. -/
def sampleGif : Gif :=
  ⟨"1", "Cat", "u1", JSNumber.val ⟨100, 1⟩, JSNumber.val ⟨100, 1⟩⟩

/-- A provider entry whose textual width is not numeric. -/
def nonNumericItem : GiphyItem :=
  ⟨"g1", "Broken", ⟨⟨"u1", "abc", "480"⟩⟩⟩

/-- A provider that always answers with the single non-numeric-width entry. -/
def serveNonNumeric : String → Nat → Except Unit GiphyResponse :=
  fun _ _ => Except.ok ⟨[nonNumericItem]⟩

/-- A two-entry provider response with numeric dimensions. -/
def sampleResponse : GiphyResponse :=
  ⟨[⟨"1", "Cat", ⟨⟨"u1", "100", "100"⟩⟩⟩, ⟨"2", "Dog", ⟨⟨"u2", "640", "480"⟩⟩⟩]⟩

/-- A provider that always answers with `sampleResponse`. -/
def sampleServe : String → Nat → Except Unit GiphyResponse :=
  fun _ _ => Except.ok sampleResponse

/-- Auxiliary: a string of length zero is empty. -/
theorem string_eq_empty_of_length_zero (t : String) (h : t.length = 0) : t = "" := by
  cases t with
  | mk data =>
      have hd : data = [] := List.length_eq_zero.mp h
      subst hd
      rfl

/-- Auxiliary: effect of one operation on cache-key membership. -/
theorem lookup_stepOp (s : GifState) (op : Op) (t : String) :
    ((stepOp s op).gifsCache.lookup t).isSome
      = (((s.gifsCache.lookup t).isSome) || opAddsKey s op t) := by
  cases op with
  | click tm fr =>
      cases hc : s.gifsCache.lookup tm with
      | some cached => simp [stepOp, handleTermClicked, hc, opAddsKey]
      | none =>
          cases fr with
          | ok gs => simp [stepOp, handleTermClicked, hc, opAddsKey]
          | error e => simp [stepOp, handleTermClicked, hc, opAddsKey]
  | search q fr =>
      by_cases h0 : (normalizeQuery q).length = 0
      · simp [stepOp, handleSearch, h0, opAddsKey, acceptedSearch]
      · by_cases h1 : normalizeQuery q ∈ s.previousTerms
        · simp [stepOp, handleSearch, h0, h1, opAddsKey, acceptedSearch]
        · cases fr with
          | ok gs =>
              by_cases ht : t = normalizeQuery q
              · subst ht
                simp [stepOp, handleSearch, h0, h1, opAddsKey, acceptedSearch,
                  fetchOk, List.lookup_cons]
              · have hbeq : (t == normalizeQuery q) = false := by
                  simp [ht]
                have hbeq' : (normalizeQuery q == t) = false := by
                  rw [beq_eq_false_iff_ne]
                  exact fun h => ht h.symm
                simp [stepOp, handleSearch, h0, h1, opAddsKey, acceptedSearch,
                  fetchOk, List.lookup_cons, hbeq, hbeq']
          | error e =>
              simp [stepOp, handleSearch, h0, h1, opAddsKey, acceptedSearch, fetchOk]

/-- Auxiliary: cache-key membership after a run, relative to the start state. -/
theorem lookup_runOps (ops : List Op) : ∀ (s : GifState) (t : String),
    ((runOps s ops).gifsCache.lookup t).isSome
      = (((s.gifsCache.lookup t).isSome) || newSearchSucceeded s ops t) := by
  induction ops with
  | nil =>
      intro s t
      simp [runOps, newSearchSucceeded]
  | cons op rest ih =>
      intro s t
      have h1 : runOps s (op :: rest) = runOps (stepOp s op) rest := rfl
      rw [h1, ih (stepOp s op) t, lookup_stepOp s op t]
      simp [newSearchSucceeded, Bool.or_assoc]

/-- Claim C1: for a non-empty normalized term not in the history, handleSearch
leaves the history equal to the first 8 elements of the prepended list, so the
term is at index 0 and the length is min (previous length + 1) 8. -/
theorem claim_C1 (fetch : Fetcher) (s : GifState) (t : String)
    (hnorm : normalizeQuery t = t) (hne : t ≠ "")
    (hmem : t ∉ s.previousTerms) :
    (handleSearch fetch s t).state.previousTerms = (t :: s.previousTerms).take 8 ∧
    (handleSearch fetch s t).state.previousTerms.head? = some t ∧
    (handleSearch fetch s t).state.previousTerms.length
      = min (s.previousTerms.length + 1) 8 := by
  have h0 : ¬ t.length = 0 := fun h => hne (string_eq_empty_of_length_zero t h)
  have hstate : (handleSearch fetch s t).state.previousTerms
      = (t :: s.previousTerms).take 8 := by
    cases hf : fetch t with
    | ok gs => simp [handleSearch, hnorm, h0, hmem, hf]
    | error e => simp [handleSearch, hnorm, h0, hmem, hf]
  refine ⟨hstate, ?_, ?_⟩
  · rw [hstate, show (8 : Nat) = 7 + 1 from rfl, List.take_succ_cons]
    rfl
  · rw [hstate, List.length_take, List.length_cons, Nat.min_comm]

/-- Claim C1 witness at a concrete input. -/
theorem claim_C1_witness :
    (handleSearch (fun _ => Except.ok []) initialState "cats").state.previousTerms
        = ("cats" :: initialState.previousTerms).take 8 ∧
    (handleSearch (fun _ => Except.ok []) initialState "cats").state.previousTerms.head?
        = some "cats" ∧
    (handleSearch (fun _ => Except.ok []) initialState "cats").state.previousTerms.length
        = min (initialState.previousTerms.length + 1) 8 :=
  claim_C1 (fun _ => Except.ok []) initialState "cats" (by decide) (by decide) (by decide)

/-- Claim C2: starting from the empty hook state, a term is a key of the
result cache after a sequence of search and click operations exactly when some
operation of the sequence was an accepted new-search for that term whose fetch
succeeded; click (replay) operations never create a cache entry. -/
theorem claim_C2 (ops : List Op) (t : String) :
    ((runOps initialState ops).gifsCache.lookup t).isSome
      = newSearchSucceeded initialState ops t := by
  have h := lookup_runOps ops initialState t
  simpa [initialState] using h

/-- Claim C3: a raw query whose normalization is already in the history leaves
the whole state unchanged, fetches nothing and raises no error. -/
theorem claim_C3 (fetch : Fetcher) (s : GifState) (raw : String)
    (hmem : normalizeQuery raw ∈ s.previousTerms) :
    handleSearch fetch s raw = ⟨s, [], false⟩ := by
  by_cases h0 : (normalizeQuery raw).length = 0
  · simp [handleSearch, h0]
  · simp [handleSearch, h0, hmem]

/-- Claim C3 witness: submitting "Cats " and then "cats" makes the second call
a no-op. -/
theorem claim_C3_witness :
    handleSearch (fun _ => Except.ok [])
        ((handleSearch (fun _ => Except.ok []) initialState "Cats ").state) "cats"
      = ⟨(handleSearch (fun _ => Except.ok []) initialState "Cats ").state, [], false⟩ :=
  claim_C3 (fun _ => Except.ok [])
    ((handleSearch (fun _ => Except.ok []) initialState "Cats ").state) "cats" (by decide)

/-- Claim C4: when the fetch for an accepted new term fails, the error
propagates, the history keeps the prepended term, and the cache and current
results are unchanged. -/
theorem claim_C4 (fetch : Fetcher) (s : GifState) (t : String)
    (hnorm : normalizeQuery t = t) (hne : t ≠ "")
    (hmem : t ∉ s.previousTerms)
    (hfail : fetch t = Except.error ()) :
    handleSearch fetch s t
      = ⟨{ s with previousTerms := (t :: s.previousTerms).take 8 }, [t], true⟩ ∧
    t ∈ (handleSearch fetch s t).state.previousTerms := by
  have h0 : ¬ t.length = 0 := fun h => hne (string_eq_empty_of_length_zero t h)
  have hres : handleSearch fetch s t
      = ⟨{ s with previousTerms := (t :: s.previousTerms).take 8 }, [t], true⟩ := by
    simp [handleSearch, hnorm, h0, hmem, hfail]
  refine ⟨hres, ?_⟩
  rw [hres, show (8 : Nat) = 7 + 1 from rfl, List.take_succ_cons]
  exact List.mem_cons_self t _

/-- Claim C4 witness at a concrete input. -/
theorem claim_C4_witness :
    (handleSearch (fun _ => Except.error ()) initialState "cats"
        = ⟨{ initialState with
              previousTerms := ("cats" :: initialState.previousTerms).take 8 },
            ["cats"], true⟩) ∧
    "cats" ∈ (handleSearch (fun _ => Except.error ()) initialState "cats").state.previousTerms :=
  claim_C4 (fun _ => Except.error ()) initialState "cats"
    (by decide) (by decide) (by decide) rfl

/-- Claim C5: replaying a cached term sets the current results to the cached
sequence and performs no fetch; history and cache are untouched. -/
theorem claim_C5 (fetch : Fetcher) (s : GifState) (t : String) (cached : List Gif)
    (hc : s.gifsCache.lookup t = some cached) :
    handleTermClicked fetch s t = ⟨{ s with gifs := cached }, [], false⟩ := by
  simp [handleTermClicked, hc]

/-- Claim C5 witness at a concrete input. -/
theorem claim_C5_witness :
    handleTermClicked (fun _ => Except.error ())
        ⟨[], ["cats"], [("cats", [sampleGif])]⟩ "cats"
      = ⟨{ (⟨[], ["cats"], [("cats", [sampleGif])]⟩ : GifState) with gifs := [sampleGif] },
          [], false⟩ :=
  claim_C5 (fun _ => Except.error ()) ⟨[], ["cats"], [("cats", [sampleGif])]⟩ "cats"
    [sampleGif] rfl

/-- Claim C6: replaying a term in the history but not in the cache fetches it
exactly once and, on success, sets the current results to the fetched sequence
while leaving the cache (and history) unchanged. -/
theorem claim_C6 (fetch : Fetcher) (s : GifState) (t : String) (gs : List Gif)
    (_hmem : t ∈ s.previousTerms)
    (hc : s.gifsCache.lookup t = none)
    (hok : fetch t = Except.ok gs) :
    handleTermClicked fetch s t = ⟨{ s with gifs := gs }, [t], false⟩ := by
  simp [handleTermClicked, hc, hok]

/-- Claim C6 witness at a concrete input. -/
theorem claim_C6_witness :
    handleTermClicked (fun _ => Except.ok [sampleGif])
        ⟨[], ["cats"], []⟩ "cats"
      = ⟨{ (⟨[], ["cats"], []⟩ : GifState) with gifs := [sampleGif] }, ["cats"], false⟩ :=
  claim_C6 (fun _ => Except.ok [sampleGif]) ⟨[], ["cats"], []⟩ "cats" [sampleGif]
    (by decide) rfl rfl

/-- Claim C7 counterexample: a provider entry with the non-numeric width "abc"
is converted to NaN, not to the sentinel 0, and no error is raised. -/
theorem claim_C7_counterexample :
    getGifsByQuery serveNonNumeric "cats"
        = Except.ok [⟨"g1", "Broken", "u1", JSNumber.nan, JSNumber.val ⟨480, 1⟩⟩] ∧
    JSNumber.nan ≠ JSNumber.val ⟨0, 1⟩ := by
  constructor
  · rfl
  · decide

/-- Claim C7 (amended): for a provider entry whose textual width is a string
that JS Number coercion takes to NaN (one outside the StringToNumber literal
grammar), getGifsByQuery maps the field to NaN — not to the sentinel 0 — and
still succeeds without raising a parse error, returning one mapped item per
provider entry. -/
theorem claim_C7_amended (serve : String → Nat → Except Unit GiphyResponse)
    (q : String) (resp : GiphyResponse) (g : GiphyItem)
    (hs : serve q 10 = Except.ok resp) (hg : g ∈ resp.data)
    (hnn : jsStringToNumber g.images.original.width = JSNumber.nan) :
    getGifsByQuery serve q = Except.ok (resp.data.map mapGifItem) ∧
    mapGifItem g ∈ resp.data.map mapGifItem ∧
    (mapGifItem g).width = JSNumber.nan ∧
    (mapGifItem g).width ≠ JSNumber.val ⟨0, 1⟩ := by
  refine ⟨by simp [getGifsByQuery, hs], List.mem_map_of_mem _ hg, ?_, ?_⟩
  · simpa [mapGifItem] using hnn
  · simp [mapGifItem, hnn]

/-- Claim C7 (amended) witness at a concrete input. -/
theorem claim_C7_witness :
    getGifsByQuery serveNonNumeric "cats"
        = Except.ok (([nonNumericItem] : List GiphyItem).map mapGifItem) ∧
    mapGifItem nonNumericItem ∈ ([nonNumericItem] : List GiphyItem).map mapGifItem ∧
    (mapGifItem nonNumericItem).width = JSNumber.nan ∧
    (mapGifItem nonNumericItem).width ≠ JSNumber.val ⟨0, 1⟩ :=
  claim_C7_amended serveNonNumeric "cats" ⟨[nonNumericItem]⟩ nonNumericItem
    rfl (by decide) (by decide)

/-- Claim C8: an empty or whitespace-only query is a complete no-op: no state
change, no fetch, no error. -/
theorem claim_C8 (fetch : Fetcher) (s : GifState) (raw : String)
    (hws : jsTrim raw = "") :
    handleSearch fetch s raw = ⟨s, [], false⟩ := by
  have h : normalizeQuery raw = "" := by
    show jsToLower (jsTrim raw) = ""
    rw [hws]
    rfl
  simp [handleSearch, h]

/-- Claim C8 witness at the inputs "" and "   ". -/
theorem claim_C8_witness :
    handleSearch (fun _ => Except.ok []) initialState "" = ⟨initialState, [], false⟩ ∧
    handleSearch (fun _ => Except.ok []) initialState "   " = ⟨initialState, [], false⟩ :=
  ⟨claim_C8 (fun _ => Except.ok []) initialState "" (by decide),
   claim_C8 (fun _ => Except.ok []) initialState "   " (by decide)⟩

/-- Claim C9: a successful fetch yields exactly the provider entries mapped in
order (one result item per entry), and, when the provider honors the requested
limit of 10, the result size is bounded by 10. -/
theorem claim_C9 (serve : String → Nat → Except Unit GiphyResponse) (q : String)
    (resp : GiphyResponse) (hs : serve q 10 = Except.ok resp)
    (hlen : resp.data.length ≤ 10) :
    getGifsByQuery serve q = Except.ok (resp.data.map mapGifItem) ∧
    (resp.data.map mapGifItem).length = resp.data.length ∧
    (resp.data.map mapGifItem).length ≤ 10 := by
  refine ⟨by simp [getGifsByQuery, hs], List.length_map _ _, ?_⟩
  rw [List.length_map]
  exact hlen

/-- Claim C9 witness at a concrete provider response. -/
theorem claim_C9_witness :
    getGifsByQuery sampleServe "cats" = Except.ok (sampleResponse.data.map mapGifItem) ∧
    (sampleResponse.data.map mapGifItem).length = sampleResponse.data.length ∧
    (sampleResponse.data.map mapGifItem).length ≤ 10 :=
  claim_C9 sampleServe "cats" sampleResponse rfl (by decide)

/-- Claim C10: handleTermClicked has no precondition: for every input it never
changes the history or the cache, the cache lookup uses the input verbatim, and
it fetches exactly when the verbatim lookup misses (with the input as query). -/
theorem claim_C10 (fetch : Fetcher) (s : GifState) (t : String) :
    (handleTermClicked fetch s t).state.previousTerms = s.previousTerms ∧
    (handleTermClicked fetch s t).state.gifsCache = s.gifsCache ∧
    (handleTermClicked fetch s t).fetched
      = (if (s.gifsCache.lookup t).isSome then [] else [t]) := by
  cases hc : s.gifsCache.lookup t with
  | some cached => simp [handleTermClicked, hc]
  | none =>
      cases hf : fetch t with
      | ok gs => simp [handleTermClicked, hc, hf]
      | error e => simp [handleTermClicked, hc, hf]
